import Mathlib

/-!
Verification development for the overleaf object-persistor library.

We shallowly embed the JavaScript source (src/src/MigrationPersistor.js,
src/src/S3Persistor.js, src/src/GcsPersistor.js, src/src/Errors.js) into
Lean.  Asynchronous backend calls are modelled as pure functions returning
`Except Err α`: an environment record supplies the outcome of every backend
operation, and the wrapper code is translated statement by statement.
Background (fire-and-forget) tasks are returned alongside the caller's
result as an `Option (Except Err Unit)` component so that their outcome is
explicitly separated from the caller's control flow.
-/

namespace ObjectPersistor

/-- Error kinds from src/src/Errors.js: NotFoundError, ReadError, WriteError,
SettingsError, plus `generic` for raw, unclassified backend errors. -/
inductive ErrKind where
  | notFound
  | read
  | write
  | settings
  | generic
deriving DecidableEq, Repr

/-- An OError-style error value: kind, message, structured info map,
an optional backend status code (raw errors only), an optional cause, and an
optional nested cleanup-failure error (`error.info.cleanupError` in
MigrationPersistor.js). -/
inductive Err where
  | mk (kind : ErrKind) (message : String) (info : List (String × String))
       (code : Option Nat) (cause : Option Err) (cleanupError : Option Err)

def Err.kind : Err → ErrKind
  | .mk k _ _ _ _ _ => k

def Err.message : Err → String
  | .mk _ m _ _ _ _ => m

def Err.info : Err → List (String × String)
  | .mk _ _ i _ _ _ => i

def Err.code : Err → Option Nat
  | .mk _ _ _ c _ _ => c

def Err.cause : Err → Option Err
  | .mk _ _ _ _ c _ => c

def Err.cleanupError : Err → Option Err
  | .mk _ _ _ _ _ ce => ce

/-- Attach a cleanup-failure record to an error
(`error.info.cleanupError = ...` in MigrationPersistor.js line 186). -/
def Err.withCleanup : Err → Err → Err
  | .mk k m i c cause _, ce => .mk k m i c cause (some ce)

/-- A backend-specific "not found" signal: an already-classified
NotFoundError, or a raw error carrying a 404-style status code. -/
def isNotFoundSignal (e : Err) : Bool :=
  e.kind = ErrKind.notFound || e.code = some 404

/-- Modelled from the spec: PersistorHelper.wrapError (the PersistorHelper
module is not under src/).  Spec 4.4: build a new classified error of the
requested kind carrying the context and the original error as cause, unless
the original error carries a backend-specific "not found" signal, in which
case the result is reclassified as NotFoundError regardless of the
requested kind. -/
def wrapError (e : Err) (message : String) (info : List (String × String))
    (kind : ErrKind) : Err :=
  if isNotFoundSignal e then
    Err.mk ErrKind.notFound "not found" info none (some e) none
  else
    Err.mk kind message info none (some e) none

/-- A stream value.  `base` streams come from a backend; `tee s n` is the
n-th PassThrough branch obtained by piping `s` (MigrationPersistor.js lines
49-54, 84-89: `new Stream.PassThrough()` plus `pipeline`). -/
inductive StreamV where
  | base (id : Nat)
  | tee (parent : StreamV) (branch : Nat)
deriving DecidableEq, Repr

/-- Byte-range options for getObjectStream.  `stop` models the JS field
`end` (a Lean keyword).  `none` models an absent (undefined) field. -/
structure GetOpts where
  start : Option Int := none
  stop : Option Int := none
deriving DecidableEq, Repr

/-- JavaScript truthiness of an optional numeric field:
`undefined` and `0` are falsy, every other number is truthy. -/
def jsTruthyOptInt : Option Int → Bool
  | none => false
  | some n => n != 0

/-- JavaScript `v || b` for an optional string `v`: the empty string is
falsy, so it falls through to the default `b`. -/
def jsOrString : Option String → String → String
  | none, b => b
  | some s, b => if s = "" then b else s

/-- The relevant part of the Settings singleton for the Migration
Persistor: `Settings.fallback.copyOnMiss` and `Settings.fallback.buckets`
(the bucket-remap table, modelled as an association list). -/
structure FallbackSettings where
  copyOnMiss : Bool
  buckets : List (String × String)

/-- `Settings.fallback.buckets[bucket]`: association-list lookup. -/
def lookupBucket (m : List (String × String)) (b : String) : Option String :=
  (m.find? (fun p => p.1 = b)).map (fun p => p.2)

/-- MigrationPersistor.js lines 115-117:
`return Settings.fallback.buckets[bucket] || bucket`. -/
def getFallbackBucket (s : FallbackSettings) (bucket : String) : String :=
  jsOrString (lookupBucket s.buckets bucket) bucket

/-- Environment giving the outcome of every backend call the Migration
Persistor makes.  `primary.promises.X` / `fallback.promises.X` become pure
functions returning `Except Err`. -/
structure MPEnv where
  settings : FallbackSettings
  primaryGetObjectStream : String → String → GetOpts → Except Err StreamV
  fallbackGetObjectStream : String → String → GetOpts → Except Err StreamV
  primaryCopyObject : String → String → String → Except Err Unit
  primarySendStream : String → String → StreamV → Option String → Except Err Unit
  fallbackGetObjectMd5Hash : String → String → Except Err String
  primaryDeleteObject : String → String → Except Err Unit

/-- MigrationPersistor.js lines 157-166: the best-effort md5 fetch from the
fallback — a fetch failure is only logged and yields no hash. -/
def sourceMd5Of (env : MPEnv) (sourceBucket sourceKey : String) :
    Option String :=
  match env.fallbackGetObjectMd5Hash sourceBucket sourceKey with
  | .ok h => some h
  | .error _ => none

/-- MigrationPersistor.js lines 150-198, `_copyStreamFromFallbackAndVerify`:
best-effort fetch the source md5 from the fallback (a failure is only
logged), send the stream into primary, and on failure build a WriteError
with source/destination identity, attempt a cleanup delete of the
destination, recording a nested cleanup error if the delete fails. -/
def copyStreamFromFallbackAndVerify (env : MPEnv) (stream : StreamV)
    (sourceBucket destBucket sourceKey destKey : String) : Except Err Unit :=
  match env.primarySendStream destBucket destKey stream
      (sourceMd5Of env sourceBucket sourceKey) with
  | .ok _ => .ok ()
  | .error err =>
    let e := Err.mk ErrKind.write "unable to copy file to destination persistor"
      [("sourceBucket", sourceBucket), ("destBucket", destBucket),
       ("sourceKey", sourceKey), ("destKey", destKey)] none (some err) none
    match env.primaryDeleteObject destBucket destKey with
    | .ok _ => .error e
    | .error cleanupErr =>
      .error (e.withCleanup (Err.mk ErrKind.write
        "unable to clean up destination copy artifact"
        [("destBucket", destBucket), ("destKey", destKey)]
        none (some cleanupErr) none))

/-- MigrationPersistor.js lines 33-70, `getObjectStreamWithFallback`.
The first component is what the caller's promise resolves or rejects with;
the second is the detached background repair task (present only when it was
started), whose errors the code swallows with `.catch(() => {})`. -/
def getObjectStreamWithFallback (env : MPEnv) (bucket key : String)
    (opts : GetOpts) : Except Err StreamV × Option (Except Err Unit) :=
  let shouldCopy := env.settings.copyOnMiss
    && !jsTruthyOptInt opts.start && !jsTruthyOptInt opts.stop
  match env.primaryGetObjectStream bucket key opts with
  | .ok s => (.ok s, none)
  | .error err =>
    if err.kind = ErrKind.notFound then
      let fallbackBucket := getFallbackBucket env.settings bucket
      match env.fallbackGetObjectStream fallbackBucket key opts with
      | .error e2 => (.error e2, none)
      | .ok fallbackStream =>
        let returnStream := StreamV.tee fallbackStream 0
        if shouldCopy then
          let copyStream := StreamV.tee fallbackStream 1
          (.ok returnStream,
           some (copyStreamFromFallbackAndVerify env copyStream
             fallbackBucket bucket key key))
        else
          (.ok returnStream, none)
    else (.error err, none)

/-- MigrationPersistor.js lines 72-113, `copyFileWithFallback`.  The first
component is the caller's result (primary copyObject, or the awaited
sourceKey-to-destKey copy from fallback bytes); the second is the detached
copy-on-miss background repair of sourceKey into primary. -/
def copyFileWithFallback (env : MPEnv) (bucket sourceKey destKey : String) :
    Except Err Unit × Option (Except Err Unit) :=
  match env.primaryCopyObject bucket sourceKey destKey with
  | .ok _ => (.ok (), none)
  | .error err =>
    if err.kind = ErrKind.notFound then
      let fallbackBucket := getFallbackBucket env.settings bucket
      match env.fallbackGetObjectStream fallbackBucket sourceKey {} with
      | .error e2 => (.error e2, none)
      | .ok fallbackStream =>
        let copyStream := StreamV.tee fallbackStream 0
        let bg :=
          if env.settings.copyOnMiss then
            let missStream := StreamV.tee fallbackStream 1
            some (copyStreamFromFallbackAndVerify env missStream
              fallbackBucket bucket sourceKey sourceKey)
          else none
        (copyStreamFromFallbackAndVerify env copyStream
          fallbackBucket bucket sourceKey destKey, bg)
    else (.error err, none)

/-- MigrationPersistor.js lines 119-148, `_wrapFallbackMethod`, generic in
the wrapped method's result type.  Note that when copy-on-miss is enabled
the fallback stream fetch that feeds the background repair is awaited, so
its failure rejects the caller's promise. -/
def wrapFallbackMethod {α : Type} (env : MPEnv)
    (primaryOp fallbackOp : String → String → Except Err α)
    (bucket key : String) : Except Err α × Option (Except Err Unit) :=
  match primaryOp bucket key with
  | .ok v => (.ok v, none)
  | .error err =>
    if err.kind = ErrKind.notFound then
      let fallbackBucket := getFallbackBucket env.settings bucket
      if env.settings.copyOnMiss then
        match env.fallbackGetObjectStream fallbackBucket key {} with
        | .error se => (.error se, none)
        | .ok fallbackStream =>
          (fallbackOp fallbackBucket key,
           some (copyStreamFromFallbackAndVerify env fallbackStream
             fallbackBucket bucket key key))
      else
        (fallbackOp fallbackBucket key, none)
    else (.error err, none)

/-- MigrationPersistor.js lines 22-31, `_wrapMethodOnBothPersistors`:
`Promise.all` over the primary call (original bucket) and the fallback call
(remapped bucket); the composite rejects if either sub-call rejects. -/
def wrapMethodOnBothPersistors (env : MPEnv)
    (primaryOp fallbackOp : String → String → Except Err Unit)
    (bucket key : String) : Except Err Unit :=
  let fallbackBucket := getFallbackBucket env.settings bucket
  match primaryOp bucket key, fallbackOp fallbackBucket key with
  | .ok _, .ok _ => .ok ()
  | .error e, _ => .error e
  | .ok _, .error e => .error e

/-! ## PersistorHelper primitives (module not under src/, modelled from the spec) -/

/-- Value of a hexadecimal digit character. -/
def hexDigitVal (c : Char) : Nat :=
  if c.isDigit then c.toNat - 48
  else if 'a' ≤ c && c ≤ 'f' then c.toNat - 87
  else if 'A' ≤ c && c ≤ 'F' then c.toNat - 55
  else 0

/-- Decode a hex string (as a char list) into bytes. -/
def hexToBytes : List Char → List Nat
  | c1 :: c2 :: rest => (16 * hexDigitVal c1 + hexDigitVal c2) :: hexToBytes rest
  | _ => []

/-- The standard base64 alphabet character for a 6-bit value. -/
def b64Char (n : Nat) : Char :=
  "ABCDEFGHIJKLMNOPQRSTUVWXYZabcdefghijklmnopqrstuvwxyz0123456789+/".toList.getD n 'A'

/-- Standard base64 encoding of a byte list, with padding. -/
def base64Encode : List Nat → List Char
  | [] => []
  | [b1] => [b64Char (b1 / 4), b64Char (b1 % 4 * 16), '=', '=']
  | [b1, b2] =>
    [b64Char (b1 / 4), b64Char (b1 % 4 * 16 + b2 / 16), b64Char (b2 % 16 * 4), '=']
  | b1 :: b2 :: b3 :: rest =>
    b64Char (b1 / 4) :: b64Char (b1 % 4 * 16 + b2 / 16) ::
    b64Char (b2 % 16 * 4 + b3 / 64) :: b64Char (b3 % 64) :: base64Encode rest

/-- Modelled from the spec: PersistorHelper.hexToBase64 (PersistorHelper is
not under src/) converts a hex-encoded digest into its base64 encoding, as
exercised by the GCS adapter tests (hex aaaaaaaabbbbbbbbaaaaaaaabbbbbbbb
maps to qqqqqru7u7uqqqqqu7u7uw==). -/
def hexToBase64 (s : String) : String :=
  String.mk (base64Encode (hexToBytes s.toList))

/-- Modelled from the spec: PersistorHelper.verifyMd5 with an explicitly
supplied destination hash (spec 4.2 step 3): compare source and destination
hashes; equal means success, unequal fails with a WriteError carrying both
hash values and the object identity.  (Spec 9 leaves post-mismatch deletion
an open question; it is not modelled.) -/
def verifyMd5 (bucketName key sourceMd5 destMd5 : String) : Except Err Unit :=
  if sourceMd5 = destMd5 then .ok ()
  else
    .error (Err.mk ErrKind.write "md5 hash mismatch"
      [("sourceMd5", sourceMd5), ("destMd5", destMd5),
       ("bucketName", bucketName), ("key", key)] none none none)

/-! ## S3 adapter (src/src/S3Persistor.js) -/

/-- S3Persistor.js lines 362-369, `_md5FromResponse`: strip spaces and
quotes from the ETag, and accept it only if it is exactly 32 lowercase hex
characters. -/
def isLowerHexDigit (c : Char) : Bool :=
  c.isDigit || ('a' ≤ c && c ≤ 'f')

/-- `_md5FromResponse` on an optional ETag (`response.ETag || ''`). -/
def md5FromResponse (eTag : Option String) : Option String :=
  let md5 := (eTag.getD "").toList.filter (fun c => c ≠ ' ' && c ≠ '"')
  if md5.length = 32 && md5.all isLowerHexDigit then some (String.mk md5)
  else none

/-- The part of an S3 upload response that sendStream reads. -/
structure S3Response where
  eTag : Option String
  bucket : String
  key : String

/-- Outcomes of the raw S3 client calls that sendStream and the read paths
make.  `upload` takes the bucket, key, body stream and the optional
ContentMD5 value; `readBack` is `getObjectStream` used for verification;
`hashOf` gives the md5 of a stream's bytes (the ObserverStream or
`calculateStreamMd5`); `headObject` returns the ContentLength. -/
structure S3Env where
  upload : String → String → StreamV → Option String → Except Err S3Response
  readBack : String → String → Except Err StreamV
  hashOf : StreamV → String
  headObject : String → String → Except Err Nat

/-- S3Persistor.js lines 69-78: resolve the destination md5 of the
just-written object — from the response ETag when it is md5-shaped,
otherwise by re-reading the object via getObjectStream and hashing it. -/
def s3DestMd5 (env : S3Env) (response : S3Response) : Except Err String :=
  match md5FromResponse response.eTag with
  | some d => .ok d
  | none =>
    match env.readBack response.bucket response.key with
    | .ok verifyStream => .ok (env.hashOf verifyStream)
    | .error e => .error e

/-- S3Persistor.js lines 37-101, `sendStream`.  With a supplied source md5
the hash is converted to base64 and passed as ContentMD5 (no local hash is
computed); otherwise the observer computes the hash in flight, the
destination hash is resolved by `s3DestMd5`, and the two hashes are
compared.  Every failure is wrapped as a WriteError. -/
def s3SendStream (env : S3Env) (bucketName key : String) (readStream : StreamV)
    (sourceMd5 : Option String) : Except Err Unit :=
  let wrap := fun e => wrapError e "upload to S3 failed"
    [("bucketName", bucketName), ("key", key)] ErrKind.write
  let b64Hash := sourceMd5.map hexToBase64
  let observer := StreamV.tee readStream 0
  match env.upload bucketName key observer b64Hash with
  | .error e => .error (wrap e)
  | .ok response =>
    match s3DestMd5 env response with
    | .error e => .error (wrap e)
    | .ok destMd5 =>
      match sourceMd5 with
      | some _ => .ok ()
      | none =>
        match verifyMd5 bucketName key (env.hashOf observer) destMd5 with
        | .ok _ => .ok ()
        | .error e => .error (wrap e)

/-- S3Persistor.js lines 194-208, `getObjectSize`: headObject wrapped as a
ReadError (reclassified NotFound on a 404 signal). -/
def s3GetObjectSize (env : S3Env) (bucketName key : String) : Except Err Nat :=
  match env.headObject bucketName key with
  | .ok n => .ok n
  | .error e =>
    .error (wrapError e "error getting size of s3 object"
      [("bucketName", bucketName), ("key", key)] ErrKind.read)

/-- S3Persistor.js lines 260-275, `checkIfObjectExists`: getObjectSize,
translating NotFoundError into `false` and wrapping any other failure as a
ReadError. -/
def s3CheckIfObjectExists (env : S3Env) (bucketName key : String) :
    Except Err Bool :=
  match s3GetObjectSize env bucketName key with
  | .ok _ => .ok true
  | .error e =>
    if e.kind = ErrKind.notFound then .ok false
    else
      .error (wrapError e "error checking whether S3 object exists"
        [("bucketName", bucketName), ("key", key)] ErrKind.read)

/-! ### S3 listing-backed operations over a paged backend

`listObjectsV2` responses are modelled as the list of successive pages the
backend serves for the prefix: the continuation token selects the next
page, `IsTruncated` holds while pages remain.  The recursion below follows
S3Persistor.js exactly: fold one page, then recurse on the continuation
token while the response is truncated. -/

/-- One `listObjectsV2` page: the object sizes under the prefix
(`Contents[i].Size`). -/
def s3PageSum (page : List Nat) : Nat :=
  page.foldl (fun acc item => item + acc) 0

/-- S3Persistor.js lines 277-310, `directorySize`, over the successive
pages: sum this response's Contents, and while IsTruncated recurse with the
NextContinuationToken (here: the remaining pages). -/
def s3DirectorySizePages : List (List Nat) → Nat
  | [] => 0
  | page :: rest =>
    let size := s3PageSum page
    if rest.isEmpty then size else size + s3DirectorySizePages rest

/-- S3Persistor.js lines 143-192, `deleteDirectory`, over successive pages
of object keys: issue one `deleteObjects` batch per non-empty page, then
recurse while truncated.  Returns the list of batch-delete calls issued, in
order. -/
def s3DeleteDirectoryCalls : List (List String) → List (List String)
  | [] => []
  | page :: rest =>
    let batches := if page.isEmpty then [] else [page]
    if rest.isEmpty then batches else batches ++ s3DeleteDirectoryCalls rest

/-! ## GCS adapter (src/src/GcsPersistor.js) -/

/-- Outcomes of the raw GCS client calls.  `upload` takes the bucket, key,
body stream and the optional base64 md5Hash metadata (present exactly when
the caller supplied a source hash, together with validation: md5);
`getObjectMd5Hash` is the adapter's own metadata-based hash fetch used by
verifyMd5; `fileExists` is the JS `file.exists()`. -/
structure GcsEnv where
  upload : String → String → StreamV → Option String → Except Err Unit
  getObjectMd5Hash : String → String → Except Err String
  hashOf : StreamV → String
  fileExists : String → String → Except Err Bool

/-- Modelled from the spec: PersistorHelper.verifyMd5 without a supplied
destination hash resolves it through the persistor's own getObjectMd5Hash
(spec 4.2 step 2), then compares as in `verifyMd5`. -/
def verifyMd5ViaFetch (env : GcsEnv) (bucketName key sourceMd5 : String) :
    Except Err Unit :=
  match env.getObjectMd5Hash bucketName key with
  | .error e => .error e
  | .ok destMd5 => verifyMd5 bucketName key sourceMd5 destMd5

/-- GcsPersistor.js lines 65-111, `sendStream`.  With a supplied source md5
the write options carry `validation: md5` and the base64 hash (no local
hash is computed); otherwise the observer's hash is verified against the
destination's metadata hash after the upload.  Failures are wrapped as
WriteError. -/
def gcsSendStream (env : GcsEnv) (bucketName key : String)
    (readStream : StreamV) (sourceMd5 : Option String) : Except Err Unit :=
  let wrap := fun e => wrapError e "upload to GCS failed"
    [("bucketName", bucketName), ("key", key)] ErrKind.write
  let observer := StreamV.tee readStream 0
  match env.upload bucketName key observer (sourceMd5.map hexToBase64) with
  | .error e => .error (wrap e)
  | .ok _ =>
    match sourceMd5 with
    | some _ => .ok ()
    | none =>
      match verifyMd5ViaFetch env bucketName key (env.hashOf observer) with
      | .ok _ => .ok ()
      | .error e => .error (wrap e)

/-- GcsPersistor.js lines 255-267, `checkIfObjectExists`: return the
backend's boolean, wrapping failures as ReadError. -/
def gcsCheckIfObjectExists (env : GcsEnv) (bucketName key : String) :
    Except Err Bool :=
  match env.fileExists bucketName key with
  | .ok b => .ok b
  | .error e =>
    .error (wrapError e "error checking if file exists in GCS"
      [("bucketName", bucketName), ("key", key)] ErrKind.read)

/-! ### GCS listing-backed operations

`storage.bucket(b).getFiles({directory})` returns the complete file array
in a single call (the client library's auto-pagination concatenates all
pages before resolving), with no continuation token in the adapter. -/

/-- The listing the GCS adapter receives from one `getFiles` call, given
the pages the backend would serve: the concatenation of all of them. -/
def gcsGetFiles (pages : List (List Nat)) : List Nat :=
  pages.flatten

/-- GcsPersistor.js lines 235-253, `directorySize`: one `getFiles` call,
then `files.reduce((acc, file) => Number(file.metadata.size) + acc, 0)`
over the fully materialized listing. -/
def gcsDirectorySize (pages : List (List Nat)) : Nat :=
  (gcsGetFiles pages).foldl (fun acc f => f + acc) 0

/-! ## Mini backend-state models for deleteObject idempotence

The claim about `deleteObject` idempotence is a statement about the
adapter's handling of absence, so the raw backend is modelled concretely:
state is the list of (bucket, key) pairs present; a GCS `file.delete`,
`file.copy` or `file.setMetadata` on an absent object fails with a
404-coded raw error, and an S3 `deleteObject` succeeds whether or not the
key exists (the code comments that S3 gives no NotFoundError there). -/

/-- GCS deleteObject settings: `Settings.gcs.deletedBucketSuffix` and
`Settings.gcs.unlockBeforeDelete`. -/
structure GcsSettings where
  deletedBucketSuffix : Option String
  unlockBeforeDelete : Bool

/-- A raw 404-coded backend error. -/
def raw404 : Err :=
  Err.mk ErrKind.generic "not found" [] (some 404) none none

/-- Backend state: the set of (bucket, key) objects present. -/
abbrev GcsState := List (String × String)

/-- Raw GCS `file.copy(dest)`: the destination appears if the source
exists, otherwise a 404-coded failure. -/
def gcsRawCopy (st : GcsState) (srcB srcK dstB dstK : String) :
    GcsState × Except Err Unit :=
  if (srcB, srcK) ∈ st then ((dstB, dstK) :: st, .ok ())
  else (st, .error raw404)

/-- Raw GCS `file.setMetadata`: fails 404 on an absent object. -/
def gcsRawSetMetadata (st : GcsState) (b k : String) :
    GcsState × Except Err Unit :=
  if (b, k) ∈ st then (st, .ok ()) else (st, .error raw404)

/-- Raw GCS `file.delete()`: removes a present object, fails 404 on an
absent one. -/
def gcsRawDelete (st : GcsState) (b k : String) : GcsState × Except Err Unit :=
  if (b, k) ∈ st then (st.filter (fun p => p ≠ (b, k)), .ok ())
  else (st, .error raw404)

/-- The catch block of GcsPersistor.js deleteObject (lines 199-209): wrap
the raw error as a WriteError and swallow it when the wrapped error is a
NotFoundError. -/
def gcsDeleteCatch (st : GcsState) (bucketName key : String) (e : Err) :
    GcsState × Except Err Unit :=
  let error := wrapError e "error deleting GCS object"
    [("bucketName", bucketName), ("key", key)] ErrKind.write
  if error.kind = ErrKind.notFound then (st, .ok ())
  else (st, .error error)

/-- GcsPersistor.js lines 184-210, `deleteObject`: optionally copy the
object into the deleted bucket (key suffixed with the date), optionally
unset the event-based hold, then delete; the first raw failure aborts the
try block and goes through the catch, which swallows not-found.  Returns
the new state and the caller's result. -/
def gcsDeleteObject (settings : GcsSettings) (st : GcsState)
    (bucketName key date : String) : GcsState × Except Err Unit :=
  let step1 : GcsState × Except Err Unit :=
    match settings.deletedBucketSuffix with
    | some suf =>
      gcsRawCopy st bucketName key (bucketName ++ suf) (key ++ "-" ++ date)
    | none => (st, .ok ())
  match step1 with
  | (st1, .error e) => gcsDeleteCatch st1 bucketName key e
  | (st1, .ok _) =>
    let step2 : GcsState × Except Err Unit :=
      if settings.unlockBeforeDelete then gcsRawSetMetadata st1 bucketName key
      else (st1, .ok ())
    match step2 with
    | (st2, .error e) => gcsDeleteCatch st2 bucketName key e
    | (st2, .ok _) =>
      match gcsRawDelete st2 bucketName key with
      | (st3, .error e) => gcsDeleteCatch st3 bucketName key e
      | (st3, .ok _) => (st3, .ok ())

/-- S3Persistor.js lines 226-240, `deleteObject` over the mini backend:
the raw S3 delete succeeds whether or not the key is present. -/
def s3DeleteObjectState (st : GcsState) (bucketName key : String) :
    GcsState × Except Err Unit :=
  (st.filter (fun p => p ≠ (bucketName, key)), .ok ())

/-! ## Concrete environments used to evaluate the theorems -/

/-- A classified not-found error. -/
def errNotFound : Err :=
  Err.mk ErrKind.notFound "not found" [] none none none

/-- A generic backend failure with no not-found signal. -/
def errGeneric : Err :=
  Err.mk ErrKind.generic "guru meditation error" [] none none none

/-- A Migration Persistor environment in the canonical migration scenario:
copy-on-miss enabled, bucketA remapped, every primary attempt not-found,
fallback serving stream 0, and a healthy primary write path. -/
def mpEnvBase : MPEnv where
  settings := { copyOnMiss := true, buckets := [("bucketA", "bucketA-legacy")] }
  primaryGetObjectStream := fun _ _ _ => .error errNotFound
  fallbackGetObjectStream := fun _ _ _ => .ok (StreamV.base 0)
  primaryCopyObject := fun _ _ _ => .error errNotFound
  primarySendStream := fun _ _ _ _ => .ok ()
  fallbackGetObjectMd5Hash := fun _ _ => .ok "ffffffff00000000ffffffff00000000"
  primaryDeleteObject := fun _ _ => .ok ()

/-- `mpEnvBase` with the background-repair upload (the branch-1 tee) made
to fail while everything else is unchanged. -/
def mpEnvBgFail : MPEnv :=
  { mpEnvBase with
    primarySendStream := fun _ _ s _ =>
      if s = StreamV.tee (StreamV.base 0) 1 then .error errGeneric
      else .ok () }

/-- `mpEnvBase` with every primary upload and every cleanup delete failing:
the repair-failure scenario. -/
def mpEnvRepairFail : MPEnv :=
  { mpEnvBase with
    primarySendStream := fun _ _ _ _ => .error errGeneric
    primaryDeleteObject := fun _ _ => .error errGeneric }

/-- An S3 environment whose upload succeeds with an md5-shaped ETag and
whose headObject fails with a raw 404. -/
def s3Env404 : S3Env where
  upload := fun b k _ _ =>
    .ok ⟨some "ffffffff00000000ffffffff00000000", b, k⟩
  readBack := fun _ _ => .ok (StreamV.base 7)
  hashOf := fun _ => "ffffffff00000000ffffffff00000000"
  headObject := fun _ _ => .error raw404

/-- `s3Env404` with a mismatching in-flight hash. -/
def s3EnvMismatch : S3Env :=
  { s3Env404 with hashOf := fun _ => "aaaaaaaabbbbbbbbaaaaaaaabbbbbbbb" }

/-- A GCS environment: upload succeeds, metadata hash matches the in-flight
hash, and `file.exists` fails with a generic error. -/
def gcsEnvA : GcsEnv where
  upload := fun _ _ _ _ => .ok ()
  getObjectMd5Hash := fun _ _ => .ok "ffffffff00000000ffffffff00000000"
  hashOf := fun _ => "ffffffff00000000ffffffff00000000"
  fileExists := fun _ _ => .error errGeneric

/-! ## Theorems -/

/-- C4: every deleteObject / deleteDirectory call on the Migration
Persistor is issued against both the primary (original bucket) and the
fallback (bucket-remapped name), and the composite call succeeds if and
only if both sub-operations succeed — either backend's failure fails the
whole call even when the other succeeded. -/
theorem dualDelete_joint_failure (env : MPEnv)
    (primaryOp fallbackOp : String → String → Except Err Unit)
    (bucket key : String) :
    wrapMethodOnBothPersistors env primaryOp fallbackOp bucket key = .ok () ↔
      (primaryOp bucket key = .ok () ∧
       fallbackOp (getFallbackBucket env.settings bucket) key = .ok ()) := by
  unfold wrapMethodOnBothPersistors
  cases hp : primaryOp bucket key with
  | ok v =>
    cases hf : fallbackOp (getFallbackBucket env.settings bucket) key with
    | ok w => simp [hp, hf]
    | error e => simp [hp, hf]
  | error e => simp [hp]

/-- Witness for C4 on the spec's dual-write scenario: when the fallback
deletion fails, the composite call fails even though the primary deletion
succeeded. -/
theorem dualDelete_joint_failure_witness :
    wrapMethodOnBothPersistors mpEnvBase (fun _ _ => Except.ok ())
      (fun _ _ => Except.error errGeneric) "bucketA" "monKey" ≠ .ok () := by
  rw [Ne, dualDelete_joint_failure]
  simp

/-- C7: the fallback bucket lookup is total (it always yields a name), an
unmapped bucket passes through unchanged, a mapped bucket is translated to
its mapped name, and a dual-write wrapper consults the fallback backend
only at the translated bucket name. -/
theorem fallbackBucket_total (s : FallbackSettings) (bucket : String) :
    (lookupBucket s.buckets bucket = none →
       getFallbackBucket s bucket = bucket) ∧
    (∀ v, lookupBucket s.buckets bucket = some v → v ≠ "" →
       getFallbackBucket s bucket = v) ∧
    (∀ env : MPEnv, env.settings = s →
     ∀ primaryOp fallbackOp fallbackOp' : String → String → Except Err Unit,
     ∀ key, fallbackOp (getFallbackBucket s bucket) key =
            fallbackOp' (getFallbackBucket s bucket) key →
       wrapMethodOnBothPersistors env primaryOp fallbackOp bucket key =
       wrapMethodOnBothPersistors env primaryOp fallbackOp' bucket key) := by
  refine ⟨?_, ?_, ?_⟩
  · intro h
    simp [getFallbackBucket, h, jsOrString]
  · intro v h hv
    simp [getFallbackBucket, h, jsOrString, hv]
  · intro env hs pOp fOp fOp' key hagree
    unfold wrapMethodOnBothPersistors
    simp only [hs, hagree]

/-- Witness for C7 on the spec's concrete scenario: bucketA remaps to
bucketA-legacy and an unmapped bucket passes through unchanged. -/
theorem fallbackBucket_total_witness :
    getFallbackBucket ⟨true, [("bucketA", "bucketA-legacy")]⟩ "bucketB" =
      "bucketB" ∧
    getFallbackBucket ⟨true, [("bucketA", "bucketA-legacy")]⟩ "bucketA" =
      "bucketA-legacy" :=
  ⟨(fallbackBucket_total ⟨true, [("bucketA", "bucketA-legacy")]⟩ "bucketB").1
     (by decide),
   (fallbackBucket_total ⟨true, [("bucketA", "bucketA-legacy")]⟩
     "bucketA").2.1 "bucketA-legacy" (by decide) (by decide)⟩

/-- Every raw failure inside the GCS deleteObject try block is a 404, and
the catch block swallows exactly those, so the operation's result is
always success in the absence-only failure model. -/
lemma gcsDeleteObject_always_ok (settings : GcsSettings) (st : GcsState)
    (b k date : String) : (gcsDeleteObject settings st b k date).2 = .ok () := by
  have catch404 : ∀ st' : GcsState, gcsDeleteCatch st' b k raw404 = (st', .ok ()) := by
    intro st'
    simp [gcsDeleteCatch, wrapError, isNotFoundSignal, raw404, Err.kind,
      Err.code]
  unfold gcsDeleteObject
  cases hsuf : settings.deletedBucketSuffix with
  | none =>
    simp only
    by_cases hun : settings.unlockBeforeDelete
    · simp only [if_pos hun, gcsRawSetMetadata]
      by_cases hmem : (b, k) ∈ st
      · simp only [if_pos hmem, gcsRawDelete, if_pos hmem]
      · simp only [if_neg hmem, catch404]
    · simp only [if_neg hun, gcsRawDelete]
      by_cases hmem : (b, k) ∈ st
      · simp only [if_pos hmem]
      · simp only [if_neg hmem, catch404]
  | some suf =>
    simp only [gcsRawCopy]
    by_cases hmem : (b, k) ∈ st
    · simp only [if_pos hmem]
      have hmem1 : (b, k) ∈ ((b ++ suf, k ++ "-" ++ date) :: st) :=
        List.mem_cons_of_mem _ hmem
      by_cases hun : settings.unlockBeforeDelete
      · simp only [if_pos hun, gcsRawSetMetadata, if_pos hmem1, gcsRawDelete]
      · simp only [if_neg hun, gcsRawDelete, if_pos hmem1]
    · simp only [if_neg hmem, catch404]

/-- C9: deleteObject is idempotent — deleting an absent object is not an
error (GCS translates the backend's 404 into success; raw S3 deletion does
not fail on absence), so a second deleteObject on the same key never fails. -/
theorem deleteObject_idempotent (settings : GcsSettings) (st : GcsState)
    (b k d1 d2 : String) :
    ((b, k) ∉ st → (gcsDeleteObject settings st b k d1).2 = .ok ()) ∧
    ((gcsDeleteObject settings (gcsDeleteObject settings st b k d1).1
        b k d2).2 = .ok ()) ∧
    ((s3DeleteObjectState (s3DeleteObjectState st b k).1 b k).2 = .ok ()) :=
  ⟨fun _ => gcsDeleteObject_always_ok settings st b k d1,
   gcsDeleteObject_always_ok settings _ b k d2,
   rfl⟩

/-- Witness for C9: a GCS delete of a never-written key succeeds, as does
the immediate second delete. -/
theorem deleteObject_idempotent_witness :
    (gcsDeleteObject ⟨none, false⟩ [] "womBucket" "monKey" "d1").2 = .ok () ∧
    (gcsDeleteObject ⟨none, false⟩
       (gcsDeleteObject ⟨none, false⟩ [] "womBucket" "monKey" "d1").1
       "womBucket" "monKey" "d2").2 = .ok () :=
  ⟨(deleteObject_idempotent ⟨none, false⟩ [] "womBucket" "monKey" "d1" "d2").1
     (by simp),
   (deleteObject_idempotent ⟨none, false⟩ [] "womBucket" "monKey" "d1"
     "d2").2.1⟩

/-- The repair primitive's outcome depends on the send/md5/delete calls
only at its own stream and destination, so two environments agreeing there
give the same repair outcome. -/
lemma copyStream_env_congr (env env' : MPEnv) (s : StreamV)
    (sb db sk dk : String)
    (hmd : env'.fallbackGetObjectMd5Hash = env.fallbackGetObjectMd5Hash)
    (hdel : env'.primaryDeleteObject = env.primaryDeleteObject)
    (hsend : ∀ m, env'.primarySendStream db dk s m =
      env.primarySendStream db dk s m) :
    copyStreamFromFallbackAndVerify env' s sb db sk dk =
      copyStreamFromFallbackAndVerify env s sb db sk dk := by
  unfold copyStreamFromFallbackAndVerify sourceMd5Of
  rw [hmd, hdel, hsend]

/-- C1: the caller's result of copyObject on the Migration Persistor is
invariant under any change to the outcome of the background repair's
upload (the branch-1 tee of the fallback stream): the caller's result
depends only on the awaited source-to-destination copy, and a failing
background repair never surfaces on the caller's control flow. -/
theorem copyObject_background_isolated (env env' : MPEnv)
    (bucket sourceKey destKey : String)
    (hs : env'.settings = env.settings)
    (hco : env'.primaryCopyObject = env.primaryCopyObject)
    (hfg : env'.fallbackGetObjectStream = env.fallbackGetObjectStream)
    (hmd : env'.fallbackGetObjectMd5Hash = env.fallbackGetObjectMd5Hash)
    (hdel : env'.primaryDeleteObject = env.primaryDeleteObject)
    (hsend : ∀ b k s m, (∀ fs, s ≠ StreamV.tee fs 1) →
       env'.primarySendStream b k s m = env.primarySendStream b k s m) :
    (copyFileWithFallback env' bucket sourceKey destKey).1 =
      (copyFileWithFallback env bucket sourceKey destKey).1 := by
  unfold copyFileWithFallback
  rw [hco, hs, hfg]
  cases hc : env.primaryCopyObject bucket sourceKey destKey with
  | ok v => rfl
  | error err =>
    by_cases hk : err.kind = ErrKind.notFound
    · simp only [hk, if_true]
      cases hfs : env.fallbackGetObjectStream
          (getFallbackBucket env.settings bucket) sourceKey {} with
      | error e2 => rfl
      | ok fs =>
        simp only
        exact copyStream_env_congr env env' (StreamV.tee fs 0)
          (getFallbackBucket env.settings bucket) bucket sourceKey destKey
          hmd hdel
          (fun m => hsend bucket destKey (StreamV.tee fs 0) m
            (fun fs' => by simp))
    · simp only [hk, if_false]

/-- Witness for C1: with the background repair's upload forced to fail
(`mpEnvBgFail`) the caller of copyObject gets the same result as with a
healthy background repair (`mpEnvBase`). -/
theorem copyObject_background_isolated_witness :
    (copyFileWithFallback mpEnvBgFail "bucketA" "monKey" "donKey").1 =
      (copyFileWithFallback mpEnvBase "bucketA" "monKey" "donKey").1 := by
  refine copyObject_background_isolated mpEnvBase mpEnvBgFail
    "bucketA" "monKey" "donKey" rfl rfl rfl rfl rfl ?_
  intro b k s m hns
  show (if s = StreamV.tee (StreamV.base 0) 1 then Except.error errGeneric
        else Except.ok ()) = Except.ok ()
  rw [if_neg (hns (StreamV.base 0))]

/-- C3: in the repair primitive, a failed md5 fetch from the fallback
yields no hash and never fails the repair by itself (the repair succeeds
exactly when the send into primary succeeds); a failed send produces a
WriteError carrying the source/destination bucket-and-key identity and the
send failure as cause, with a nested cleanup-failure error recorded when
the cleanup delete of the destination itself fails — the outer error's
kind is Write in either case. -/
theorem repair_cleanup_and_md5 (env : MPEnv) (stream : StreamV)
    (sb db sk dk : String) :
    (∀ he, env.fallbackGetObjectMd5Hash sb sk = .error he →
       sourceMd5Of env sb sk = none) ∧
    (copyStreamFromFallbackAndVerify env stream sb db sk dk = .ok () ↔
       env.primarySendStream db dk stream (sourceMd5Of env sb sk) = .ok ()) ∧
    (∀ se, env.primarySendStream db dk stream (sourceMd5Of env sb sk) =
        .error se →
       ∃ e', copyStreamFromFallbackAndVerify env stream sb db sk dk =
           .error e' ∧
         e'.kind = ErrKind.write ∧
         e'.info = [("sourceBucket", sb), ("destBucket", db),
           ("sourceKey", sk), ("destKey", dk)] ∧
         e'.cause = some se ∧
         (env.primaryDeleteObject db dk = .ok () → e'.cleanupError = none) ∧
         (∀ ce, env.primaryDeleteObject db dk = .error ce →
            ∃ cn, e'.cleanupError = some cn ∧ cn.kind = ErrKind.write ∧
              cn.cause = some ce)) := by
  refine ⟨?_, ?_, ?_⟩
  · intro he h
    simp [sourceMd5Of, h]
  · unfold copyStreamFromFallbackAndVerify
    cases hsend : env.primarySendStream db dk stream (sourceMd5Of env sb sk) with
    | ok v => simp
    | error se =>
      cases hdel : env.primaryDeleteObject db dk with
      | ok u => simp
      | error ce => simp
  · intro se hsend
    unfold copyStreamFromFallbackAndVerify
    rw [hsend]
    cases hdel : env.primaryDeleteObject db dk with
    | ok u =>
      exact ⟨_, rfl, rfl, rfl, rfl, fun _ => rfl,
        fun ce hce => by simp at hce⟩
    | error ce =>
      refine ⟨_, rfl, rfl, rfl, rfl, fun hok => ?_, fun ce' hce' => ?_⟩
      · simp at hok
      · injection hce' with h
        subst h
        exact ⟨_, rfl, rfl, rfl⟩

/-- Witness for C3: with both the primary upload and the cleanup delete
failing, the repair raises a WriteError with the full identity, the send
failure as cause, and a nested Write-kinded cleanup error. -/
theorem repair_cleanup_and_md5_witness :
    ∃ e', copyStreamFromFallbackAndVerify mpEnvRepairFail (StreamV.base 0)
        "bucketA-legacy" "bucketA" "monKey" "donKey" = .error e' ∧
      e'.kind = ErrKind.write ∧
      e'.info = [("sourceBucket", "bucketA-legacy"), ("destBucket", "bucketA"),
        ("sourceKey", "monKey"), ("destKey", "donKey")] ∧
      e'.cause = some errGeneric ∧
      ∃ cn, e'.cleanupError = some cn ∧ cn.kind = ErrKind.write ∧
        cn.cause = some errGeneric := by
  obtain ⟨e', hres, hkind, hinfo, hcause, -, hclean⟩ :=
    (repair_cleanup_and_md5 mpEnvRepairFail (StreamV.base 0)
      "bucketA-legacy" "bucketA" "monKey" "donKey").2.2 errGeneric rfl
  exact ⟨e', hres, hkind, hinfo, hcause, hclean errGeneric rfl⟩

/-- C10: in the Migration Persistor's getObjectStream fallback path with
copy-on-miss enabled, the range fields are tested for JS falsiness, not
presence: a byte-range request with start = 0 and end = 0 on a key missing
from primary and present on fallback still triggers the background copy,
while any request with a nonzero (truthy) start or end suppresses it. -/
theorem rangeZeroZero_triggers_backgroundCopy (env : MPEnv) (b k : String)
    (e : Err) (s : StreamV)
    (hcm : env.settings.copyOnMiss = true)
    (hp : env.primaryGetObjectStream b k ⟨some 0, some 0⟩ = .error e)
    (hk : e.kind = ErrKind.notFound)
    (hf : env.fallbackGetObjectStream (getFallbackBucket env.settings b) k
            ⟨some 0, some 0⟩ = .ok s) :
    ((getObjectStreamWithFallback env b k ⟨some 0, some 0⟩).2).isSome = true ∧
    (∀ opts : GetOpts,
       jsTruthyOptInt opts.start = true ∨ jsTruthyOptInt opts.stop = true →
       (getObjectStreamWithFallback env b k opts).2 = none) := by
  constructor
  · unfold getObjectStreamWithFallback
    simp [hp, hk, hf, hcm, jsTruthyOptInt]
  · intro opts hor
    unfold getObjectStreamWithFallback
    have hsc : (env.settings.copyOnMiss && !jsTruthyOptInt opts.start &&
        !jsTruthyOptInt opts.stop) = false := by
      rcases hor with h | h <;> simp [h]
    cases hpg : env.primaryGetObjectStream b k opts with
    | ok s' => simp [hpg]
    | error e' =>
      by_cases hk' : e'.kind = ErrKind.notFound
      · cases hfg : env.fallbackGetObjectStream
            (getFallbackBucket env.settings b) k opts with
        | ok fs => simp [hpg, hk', hfg, hsc]
        | error e2 => simp [hpg, hk', hfg]
      · simp [hpg, hk']

/-- Witness for C10: in the canonical migration scenario a 0-0 range read
starts the background copy, and a 5-10 range read does not. -/
theorem rangeZeroZero_triggers_backgroundCopy_witness :
    ((getObjectStreamWithFallback mpEnvBase "bucketA" "monKey"
        ⟨some 0, some 0⟩).2).isSome = true ∧
    (getObjectStreamWithFallback mpEnvBase "bucketA" "monKey"
        ⟨some 5, some 10⟩).2 = none := by
  have h := rangeZeroZero_triggers_backgroundCopy mpEnvBase "bucketA"
    "monKey" errNotFound (StreamV.base 0) rfl rfl rfl rfl
  exact ⟨h.1, h.2 ⟨some 5, some 10⟩ (Or.inl (by decide))⟩

/-- C2: for every read operation on the Migration Persistor, the fallback
is consulted exactly when the primary attempt fails with NotFoundError:
a primary success is returned as-is, any other primary failure is rethrown
without a fallback attempt, on a primary NotFound the result comes from a
fallback call on the remapped bucket, and a NotFound observed by the
caller means both the primary attempt and the fallback consultation that
produced the result were NotFound. -/
theorem fallback_on_notFound_only {α : Type} (env : MPEnv)
    (primaryOp fallbackOp : String → String → Except Err α)
    (bucket key : String) (opts : GetOpts) :
    (∀ v, primaryOp bucket key = .ok v →
       (wrapFallbackMethod env primaryOp fallbackOp bucket key).1 = .ok v) ∧
    (∀ e, primaryOp bucket key = .error e → e.kind ≠ ErrKind.notFound →
       (wrapFallbackMethod env primaryOp fallbackOp bucket key).1 =
         .error e) ∧
    (∀ e, primaryOp bucket key = .error e → e.kind = ErrKind.notFound →
       (wrapFallbackMethod env primaryOp fallbackOp bucket key).1 =
         fallbackOp (getFallbackBucket env.settings bucket) key ∨
       (∃ se, env.fallbackGetObjectStream
            (getFallbackBucket env.settings bucket) key {} = .error se ∧
          (wrapFallbackMethod env primaryOp fallbackOp bucket key).1 =
            .error se)) ∧
    (∀ e', (wrapFallbackMethod env primaryOp fallbackOp bucket key).1 =
         .error e' → e'.kind = ErrKind.notFound →
       (∃ e, primaryOp bucket key = .error e ∧
          e.kind = ErrKind.notFound) ∧
       ((∃ e2, fallbackOp (getFallbackBucket env.settings bucket) key =
            .error e2 ∧ e2.kind = ErrKind.notFound) ∨
        (∃ e3, env.fallbackGetObjectStream
            (getFallbackBucket env.settings bucket) key {} = .error e3 ∧
          e3.kind = ErrKind.notFound))) ∧
    (∀ s, env.primaryGetObjectStream bucket key opts = .ok s →
       (getObjectStreamWithFallback env bucket key opts).1 = .ok s) ∧
    (∀ e, env.primaryGetObjectStream bucket key opts = .error e →
       e.kind ≠ ErrKind.notFound →
       (getObjectStreamWithFallback env bucket key opts).1 = .error e) ∧
    (∀ e fs, env.primaryGetObjectStream bucket key opts = .error e →
       e.kind = ErrKind.notFound →
       env.fallbackGetObjectStream (getFallbackBucket env.settings bucket)
         key opts = .ok fs →
       (getObjectStreamWithFallback env bucket key opts).1 =
         .ok (StreamV.tee fs 0)) ∧
    (∀ e', (getObjectStreamWithFallback env bucket key opts).1 =
         .error e' → e'.kind = ErrKind.notFound →
       (∃ e, env.primaryGetObjectStream bucket key opts = .error e ∧
          e.kind = ErrKind.notFound) ∧
       (∃ e2, env.fallbackGetObjectStream
           (getFallbackBucket env.settings bucket) key opts = .error e2 ∧
         e2.kind = ErrKind.notFound)) := by
  refine ⟨?_, ?_, ?_, ?_, ?_, ?_, ?_, ?_⟩
  · intro v h
    simp [wrapFallbackMethod, h]
  · intro e h hk
    simp [wrapFallbackMethod, h, hk]
  · intro e h hk
    unfold wrapFallbackMethod
    rw [h]
    simp only [hk, if_true]
    by_cases hcm : env.settings.copyOnMiss
    · simp only [hcm, if_true]
      cases hfs : env.fallbackGetObjectStream
          (getFallbackBucket env.settings bucket) key {} with
      | ok fs => exact Or.inl rfl
      | error se => exact Or.inr ⟨se, rfl, rfl⟩
    · simp only [hcm, if_false]
      exact Or.inl rfl
  · intro e' hres hk'
    unfold wrapFallbackMethod at hres
    cases hp : primaryOp bucket key with
    | ok v => rw [hp] at hres; simp at hres
    | error e =>
      rw [hp] at hres
      by_cases hk : e.kind = ErrKind.notFound
      · simp only [hk, if_true] at hres
        refine ⟨⟨e, rfl, hk⟩, ?_⟩
        by_cases hcm : env.settings.copyOnMiss
        · simp only [hcm, if_true] at hres
          cases hfs : env.fallbackGetObjectStream
              (getFallbackBucket env.settings bucket) key {} with
          | ok fs =>
            rw [hfs] at hres
            exact Or.inl ⟨e', hres, hk'⟩
          | error se =>
            rw [hfs] at hres
            have hse : se = e' := by simpa using hres
            refine Or.inr ⟨e', ?_, hk'⟩
            rw [hse]
        · simp only [hcm, if_false] at hres
          exact Or.inl ⟨e', hres, hk'⟩
      · simp only [hk, if_false] at hres
        simp at hres
        subst hres
        exact absurd hk' hk
  · intro s h
    simp [getObjectStreamWithFallback, h]
  · intro e h hk
    simp [getObjectStreamWithFallback, h, hk]
  · intro e fs h hk hfs
    by_cases hsc : (env.settings.copyOnMiss && !jsTruthyOptInt opts.start &&
        !jsTruthyOptInt opts.stop) = true
    · simp [getObjectStreamWithFallback, h, hk, hfs, hsc]
    · simp [getObjectStreamWithFallback, h, hk, hfs, hsc]
  · intro e' hres hk'
    unfold getObjectStreamWithFallback at hres
    cases hp : env.primaryGetObjectStream bucket key opts with
    | ok s => rw [hp] at hres; simp at hres
    | error e =>
      rw [hp] at hres
      by_cases hk : e.kind = ErrKind.notFound
      · simp only [hk, if_true] at hres
        refine ⟨⟨e, rfl, hk⟩, ?_⟩
        cases hfs : env.fallbackGetObjectStream
            (getFallbackBucket env.settings bucket) key opts with
        | ok fs =>
          rw [hfs] at hres
          by_cases hsc : (env.settings.copyOnMiss &&
              !jsTruthyOptInt opts.start && !jsTruthyOptInt opts.stop) = true
          · simp [hsc] at hres
          · simp [hsc] at hres
        | error se =>
          rw [hfs] at hres
          have hse : se = e' := by simpa using hres
          refine ⟨e', ?_, hk'⟩
          rw [hse]
      · simp only [hk, if_false] at hres
        simp at hres
        subst hres
        exact absurd hk' hk

/-- Witness for C2: a primary success is returned as-is, and when both the
primary and the fallback stream fetch are NotFound the caller observes
NotFound. -/
theorem fallback_on_notFound_only_witness :
    (wrapFallbackMethod mpEnvBase (fun _ _ => Except.ok 33)
       (fun _ _ => Except.ok 44) "bucketA" "monKey").1 = .ok 33 ∧
    (wrapFallbackMethod mpEnvBase
       (fun _ _ => Except.error errNotFound)
       (fun _ _ => (Except.ok 44 : Except Err Nat))
       "bucketA" "monKey").1 = .ok 44 := by
  constructor
  · exact (fallback_on_notFound_only mpEnvBase (fun _ _ => Except.ok 33)
      (fun _ _ => Except.ok 44) "bucketA" "monKey" {}).1 33 rfl
  · have h := (fallback_on_notFound_only mpEnvBase
      (fun _ _ => Except.error errNotFound)
      (fun _ _ => (Except.ok 44 : Except Err Nat))
      "bucketA" "monKey" {}).2.2.1 errNotFound rfl rfl
    rcases h with h | ⟨se, hse, -⟩
    · exact h
    · exact absurd hse (by simp [mpEnvBase])

/-- C8: checkIfObjectExists returns a boolean and never throws
NotFoundError — the S3 adapter translates a backend not-found signal into
`false` and raises only ReadError otherwise (unconditionally), and the GCS
adapter returns the backend's boolean, raising ReadError on a backend
failure that carries no not-found signal. -/
theorem checkIfObjectExists_no_notFound (s3env : S3Env) (genv : GcsEnv)
    (b k : String) :
    (∀ n, s3env.headObject b k = .ok n →
       s3CheckIfObjectExists s3env b k = .ok true) ∧
    (∀ e, s3env.headObject b k = .error e → isNotFoundSignal e = true →
       s3CheckIfObjectExists s3env b k = .ok false) ∧
    (∀ e', s3CheckIfObjectExists s3env b k = .error e' →
       e'.kind = ErrKind.read) ∧
    (∀ v, genv.fileExists b k = .ok v →
       gcsCheckIfObjectExists genv b k = .ok v) ∧
    (∀ e, genv.fileExists b k = .error e → isNotFoundSignal e = false →
       ∃ e', gcsCheckIfObjectExists genv b k = .error e' ∧
         e'.kind = ErrKind.read) := by
  refine ⟨?_, ?_, ?_, ?_, ?_⟩
  · intro n h
    simp [s3CheckIfObjectExists, s3GetObjectSize, h]
  · intro e h hsig
    simp [s3CheckIfObjectExists, s3GetObjectSize, h, wrapError, hsig,
      Err.kind]
  · intro e' hres
    unfold s3CheckIfObjectExists s3GetObjectSize at hres
    cases hh : s3env.headObject b k with
    | ok n => rw [hh] at hres; simp at hres
    | error e =>
      rw [hh] at hres
      cases hsig : isNotFoundSignal e with
      | true => simp [wrapError, hsig, Err.kind] at hres
      | false =>
        simp only [wrapError, hsig, Bool.false_eq_true, if_false] at hres
        simp [Err.kind, isNotFoundSignal, Err.code] at hres
        subst hres
        rfl
  · intro v h
    simp [gcsCheckIfObjectExists, h]
  · intro e h hsig
    simp [gcsCheckIfObjectExists, h, wrapError, hsig, Err.kind]

/-- Witness for C8: a raw 404 from S3 headObject yields `ok false`, and a
generic GCS exists-failure yields a ReadError. -/
theorem checkIfObjectExists_no_notFound_witness :
    s3CheckIfObjectExists s3Env404 "womBucket" "monKey" = .ok false ∧
    ∃ e', gcsCheckIfObjectExists gcsEnvA "womBucket" "monKey" = .error e' ∧
      e'.kind = ErrKind.read := by
  have h := checkIfObjectExists_no_notFound s3Env404 gcsEnvA
    "womBucket" "monKey"
  exact ⟨h.2.1 raw404 rfl rfl, h.2.2.2.2 errGeneric rfl rfl⟩

/-- C5: sendStream hash handling on both adapters.  With a supplied source
hash, the hash is passed to the backend (base64-encoded) for backend-native
validation and the locally observed hash is never consulted (the result is
invariant under every choice of local hash function, and the upload is
consulted only at that ContentMD5 / md5Hash-metadata argument).  With no
supplied hash, the destination hash is resolved after the upload — for S3
from the response ETag when it is md5-shaped and otherwise by re-reading
through getObjectStream and hashing — and the upload succeeds exactly when
the observer's hash equals the destination hash, failing with a WriteError
on mismatch. -/
theorem sendStream_hash_verification (env : S3Env) (genv : GcsEnv)
    (b k h : String) (stream : StreamV) :
    (∀ env' : S3Env, env'.readBack = env.readBack →
       (∀ bb kk ss, env'.upload bb kk ss (some (hexToBase64 h)) =
          env.upload bb kk ss (some (hexToBase64 h))) →
       s3SendStream env' b k stream (some h) =
         s3SendStream env b k stream (some h)) ∧
    (∀ resp d, env.upload b k (StreamV.tee stream 0) none = .ok resp →
       s3DestMd5 env resp = .ok d →
       ((env.hashOf (StreamV.tee stream 0) = d →
           s3SendStream env b k stream none = .ok ()) ∧
        (env.hashOf (StreamV.tee stream 0) ≠ d →
           ∃ e', s3SendStream env b k stream none = .error e' ∧
             e'.kind = ErrKind.write))) ∧
    (∀ resp d, md5FromResponse resp.eTag = some d →
       s3DestMd5 env resp = .ok d) ∧
    (∀ resp vs, md5FromResponse resp.eTag = none →
       env.readBack resp.bucket resp.key = .ok vs →
       s3DestMd5 env resp = .ok (env.hashOf vs)) ∧
    (∀ genv' : GcsEnv,
       (∀ bb kk ss, genv'.upload bb kk ss (some (hexToBase64 h)) =
          genv.upload bb kk ss (some (hexToBase64 h))) →
       gcsSendStream genv' b k stream (some h) =
         gcsSendStream genv b k stream (some h)) ∧
    (∀ d, genv.upload b k (StreamV.tee stream 0) none = .ok () →
       genv.getObjectMd5Hash b k = .ok d →
       ((genv.hashOf (StreamV.tee stream 0) = d →
           gcsSendStream genv b k stream none = .ok ()) ∧
        (genv.hashOf (StreamV.tee stream 0) ≠ d →
           ∃ e', gcsSendStream genv b k stream none = .error e' ∧
             e'.kind = ErrKind.write))) := by
  have hms : Option.map hexToBase64 (some h) = some (hexToBase64 h) := rfl
  have hmn : Option.map hexToBase64 (none : Option String) =
    (none : Option String) := rfl
  refine ⟨?_, ?_, ?_, ?_, ?_, ?_⟩
  · intro env' hrb hup
    unfold s3SendStream
    simp only [hms]
    rw [hup]
    cases hu : env.upload b k (StreamV.tee stream 0) (some (hexToBase64 h)) with
    | error e => rfl
    | ok resp =>
      simp only
      unfold s3DestMd5
      rw [hrb]
      cases md5FromResponse resp.eTag with
      | some d => rfl
      | none =>
        cases env.readBack resp.bucket resp.key with
        | ok vs => rfl
        | error e => rfl
  · intro resp d hu hd
    constructor
    · intro heq
      unfold s3SendStream
      simp only [hmn, hu, hd]
      simp [verifyMd5, heq]
    · intro hne
      unfold s3SendStream
      simp only [hmn, hu, hd]
      simp only [verifyMd5, if_neg hne]
      exact ⟨_, rfl, by
        simp [wrapError, isNotFoundSignal, Err.kind, Err.code]⟩
  · intro resp d hd
    unfold s3DestMd5
    rw [hd]
  · intro resp vs hd hrb
    unfold s3DestMd5
    rw [hd, hrb]
  · intro genv' hup
    unfold gcsSendStream
    simp only [hms]
    rw [hup]
  · intro d hu hd
    constructor
    · intro heq
      unfold gcsSendStream verifyMd5ViaFetch
      simp only [hmn, hu, hd]
      simp [verifyMd5, heq]
    · intro hne
      unfold gcsSendStream verifyMd5ViaFetch
      simp only [hmn, hu, hd]
      simp only [verifyMd5, if_neg hne]
      exact ⟨_, rfl, by
        simp [wrapError, isNotFoundSignal, Err.kind, Err.code]⟩

/-- Witness for C5: with the matching-hash S3 environment the no-hash
upload succeeds, and with the mismatching one it fails with a WriteError;
the GCS adapter behaves the same. -/
theorem sendStream_hash_verification_witness :
    s3SendStream s3Env404 "womBucket" "monKey" (StreamV.base 3) none =
      .ok () ∧
    (∃ e', s3SendStream s3EnvMismatch "womBucket" "monKey" (StreamV.base 3)
        none = .error e' ∧ e'.kind = ErrKind.write) ∧
    gcsSendStream gcsEnvA "womBucket" "monKey" (StreamV.base 3) none =
      .ok () := by
  refine ⟨?_, ?_, ?_⟩
  · exact ((sendStream_hash_verification s3Env404 gcsEnvA "womBucket"
      "monKey" "h" (StreamV.base 3)).2.1
      ⟨some "ffffffff00000000ffffffff00000000", "womBucket", "monKey"⟩
      "ffffffff00000000ffffffff00000000" rfl (by rfl)).1 rfl
  · exact ((sendStream_hash_verification s3EnvMismatch gcsEnvA "womBucket"
      "monKey" "h" (StreamV.base 3)).2.1
      ⟨some "ffffffff00000000ffffffff00000000", "womBucket", "monKey"⟩
      "ffffffff00000000ffffffff00000000" rfl (by rfl)).2 (by decide)
  · exact ((sendStream_hash_verification s3Env404 gcsEnvA "womBucket"
      "monKey" "h" (StreamV.base 3)).2.2.2.2.2
      "ffffffff00000000ffffffff00000000" rfl rfl).1 rfl

/-- Folding with the flipped addition used by the JS reduce callbacks. -/
lemma foldl_flip_add (l : List Nat) (c : Nat) :
    l.foldl (fun acc item => item + acc) c = c + l.sum := by
  induction l generalizing c with
  | nil => simp
  | cons a t ih =>
    rw [List.foldl_cons, ih, List.sum_cons]
    omega

/-- The S3 page-by-page recursion computes the sum over all pages. -/
lemma s3DirectorySizePages_eq_sum (pages : List (List Nat)) :
    s3DirectorySizePages pages = pages.flatten.sum := by
  induction pages with
  | nil => simp [s3DirectorySizePages]
  | cons p rest ih =>
    unfold s3DirectorySizePages
    cases rest with
    | nil => simp [s3PageSum, foldl_flip_add]
    | cons q rest' =>
      simp only [List.isEmpty_cons, Bool.false_eq_true, if_false]
      rw [ih]
      simp [s3PageSum, foldl_flip_add, List.flatten_cons]

/-- C6 counterexample: the GCS adapter's listing-backed operations do not
consume pages one at a time through a continuation token — its single
getFiles call returns the auto-paginated, fully materialized listing.
With three backend pages of one object each, GCS directorySize receives
all three objects in one array before folding, contradicting the claim
that every listing-backed operation processes one page at a time without
materializing the full listing. -/
theorem gcs_fullListing_counterexample :
    gcsGetFiles [[11], [22], [33]] = [11, 22, 33] ∧
    (gcsGetFiles [[11], [22], [33]]).length = 3 ∧
    gcsDirectorySize [[11], [22], [33]] = 66 := by
  refine ⟨rfl, rfl, rfl⟩

/-- C6 amended: directorySize returns 0 on an empty listing and otherwise
the exact sum of the object sizes, across multiple listing pages; the S3
listing-backed operations consume paginated results one page at a time via
a continuation token (directorySize folds one page per recursive step, and
deleteDirectory issues exactly one batch delete per non-empty page), while
the GCS adapter folds over the full listing returned by a single getFiles
call. -/
theorem directorySize_pagination (pages : List (List Nat))
    (keyPages : List (List String)) :
    s3DirectorySizePages pages = pages.flatten.sum ∧
    s3DirectorySizePages [[]] = 0 ∧
    s3DeleteDirectoryCalls keyPages =
      keyPages.filter (fun p => !p.isEmpty) ∧
    gcsDirectorySize pages = pages.flatten.sum ∧
    gcsDirectorySize [] = 0 := by
  refine ⟨s3DirectorySizePages_eq_sum pages, rfl, ?_, ?_, rfl⟩
  · induction keyPages with
    | nil => rfl
    | cons p rest ih =>
      unfold s3DeleteDirectoryCalls
      cases rest with
      | nil =>
        cases hp : p.isEmpty <;>
          simp [List.filter, hp, s3DeleteDirectoryCalls]
      | cons q rest' =>
        simp only [List.isEmpty_cons, Bool.false_eq_true, if_false]
        rw [ih]
        cases hp : p.isEmpty <;> simp [List.filter, hp]
  · unfold gcsDirectorySize gcsGetFiles
    rw [foldl_flip_add]
    simp

end ObjectPersistor
